import Mathlib

/-!
Shallow embedding of the MaxTrace blueprint-detection backend
(`backend/functions/upload_handler.py`, `inference_handler.py`,
`status_handler.py`, `results_handler.py` and
`ml-model/deployment/inference.py`), together with proofs of the
behavioural claims about the retrying invoker, the pipeline
coordinator, intake validation and the status/results lookups.

Modelling conventions:
* Machine floats of the source are modelled as rationals.
* Python string membership (`a in b`) and `str.endswith` are modelled
  on the character lists of the strings; `str.lower` maps
  `Char.toLower` over the characters.
* The S3 bucket is a finite association list from structured object
  keys (session, job, document kind) to parsed documents; the rendered
  string of a key is exactly the `uploads/...` path the handlers
  build, and the listing-based lookups of the status and results
  handlers match on those rendered strings.
* Wall-clock timestamps (`updatedAt`, `uploadedAt`, `detectedAt`) are
  omitted from the documents; the elapsed processing time is an oracle
  parameter.
* The external SageMaker endpoint is an oracle `Nat -> Outcome` giving
  the outcome of each invocation attempt; handlers that call it are
  parametrised by that oracle.
-/

namespace MaxTrace

/-- Truthiness of an optional JSON string, as Python `bool(x)`:
absent and empty are falsy. -/
def optStrTruthy : Option String → Bool
  | none => false
  | some s => !(s == "")

/-- Truthiness of an optional JSON integer, as Python `bool(x)`:
absent and zero are falsy. -/
def optIntTruthy : Option Int → Bool
  | none => false
  | some n => !(n == 0)

/-- Python substring containment `needle in hay`. -/
def pyIn (needle hay : String) : Bool := decide (needle.data <:+: hay.data)

/-- Python `s.endswith(t)`. -/
def strEndsWith (s t : String) : Bool := decide (t.data <:+ s.data)

/-- Python `str.lower`. -/
def strLower (s : String) : String := s.map Char.toLower

/-- Python `int()` truncation toward zero on a rational. -/
def pyInt (q : ℚ) : ℤ := if 0 ≤ q then ⌊q⌋ else ⌈q⌉

/-- Python rounding of a rational to the nearest integer with ties to
even (banker rounding, as `round` does on exact values). -/
def roundHalfToEven (q : ℚ) : ℤ :=
  if q - ⌊q⌋ < 1 / 2 then ⌊q⌋
  else if 1 / 2 < q - ⌊q⌋ then ⌊q⌋ + 1
  else if ⌊q⌋ % 2 = 0 then ⌊q⌋ else ⌊q⌋ + 1

/-- Python `round(q, n)` on a rational. -/
def pyRound (q : ℚ) (n : ℕ) : ℚ := (roundHalfToEven (q * 10 ^ n) : ℚ) / 10 ^ n

/-- One bounding box in pixel units, as built by `predict_fn`. -/
structure BBox where
  x : ℤ
  y : ℤ
  width : ℤ
  height : ℤ
deriving DecidableEq, Repr

/-- One detection as produced by the inference service; `cls` models
the JSON field named `class`, which the pipeline coordinator treats as
optional (`detection.get('class', 'unknown')`). -/
structure Detection where
  roomId : ℕ
  boundingBox : BBox
  confidence : ℚ
  cls : Option String
  area : ℤ
deriving DecidableEq, Repr

/-- Image dimensions reported by the inference service. -/
structure Dims where
  width : ℤ
  height : ℤ
deriving DecidableEq, Repr

/-- The JSON body answered by the inference endpoint. Every field is
optional because the coordinator reads each one with a `.get` default. -/
structure SMResponse where
  detections : Option (List Detection)
  dimensions : Option Dims
  totalRooms : Option ℤ
  avgConfidence : Option ℚ
deriving DecidableEq, Repr

/-- One row of the pandas prediction frame in `predict_fn`. -/
structure Row where
  xmin : ℚ
  ymin : ℚ
  xmax : ℚ
  ymax : ℚ
  confidence : ℚ
  name : String
deriving DecidableEq, Repr

/-- Detection list built by `predict_fn`: `roomId` is the running
length plus one, coordinates and the area are truncated to int. -/
def buildDetections (rows : List Row) : List Detection :=
  rows.mapIdx fun i row =>
    { roomId := i + 1
      boundingBox :=
        { x := pyInt row.xmin
          y := pyInt row.ymin
          width := pyInt (row.xmax - row.xmin)
          height := pyInt (row.ymax - row.ymin) }
      confidence := row.confidence
      cls := some row.name
      area := pyInt ((row.xmax - row.xmin) * (row.ymax - row.ymin)) }

/-- The response assembled at the end of `predict_fn`: detections,
dimensions, `totalRooms = len(detections)` and the unrounded average
confidence (`sum / len` over the detections when nonempty, else 0). -/
def predict_fn (rows : List Row) (imgWidth imgHeight : ℤ) : SMResponse :=
  let dets := buildDetections rows
  { detections := some dets
    dimensions := some { width := imgWidth, height := imgHeight }
    totalRooms := some (dets.length : ℤ)
    avgConfidence :=
      some (if dets = [] then 0 else (dets.map Detection.confidence).sum / (dets.length : ℚ)) }

/-- Request payload the coordinator sends to the endpoint. -/
structure Payload where
  s3_uri : String
  confidence : ℚ
deriving DecidableEq, Repr

/-- Outcome of one attempt against the SageMaker endpoint: a parsed
response, a `ModelError`, or any other exception with its message. -/
inductive Outcome
  | success (r : SMResponse)
  | modelError (msg : String)
  | failure (msg : String)
deriving DecidableEq, Repr

/-- Value of `invoke_sagemaker_with_retry`: a parsed response, a
re-raised `ModelError`, a re-raised other exception, or the implicit
`None` when the loop body never runs (`max_retries = 0`). -/
inductive RetryResult
  | ok (r : SMResponse)
  | modelError (msg : String)
  | raised (msg : String)
  | fellThrough
deriving DecidableEq, Repr

/-- Observable event of the retry loop: an endpoint invocation for a
given 0-indexed attempt, or a backoff sleep of a given duration. -/
inductive Ev
  | att (i : ℕ)
  | sleep (d : ℚ)
deriving DecidableEq, Repr

/-- Selects the invocation events of a trace. -/
def Ev.isAtt : Ev → Bool
  | .att _ => true
  | .sleep _ => false

/-- Retryability test of `invoke_sagemaker_with_retry`: the error
message mentions one of the transient categories (service unavailable,
throttling, internal failure), or mentions a timeout after
lowercasing. -/
def is_retryable (msg : String) : Bool :=
  pyIn "ServiceUnavailable" msg || pyIn "ThrottlingException" msg ||
  pyIn "InternalFailure" msg || pyIn "timeout" (strLower msg)

/-- The `for attempt in range(max_retries)` loop of
`invoke_sagemaker_with_retry`, unrolled on the remaining iteration
count (`fuel = max_retries - attempt`). Returns the value of the call
and the ordered list of invocation and sleep events it performs. A
success or a `ModelError` returns/raises at once; any other error
sleeps `base_delay * 2 ^ attempt` and iterates while it is retryable
and attempts remain, and re-raises otherwise. -/
def retryAux (o : ℕ → Outcome) (baseDelay : ℚ) (maxRetries : ℕ) :
    ℕ → ℕ → RetryResult × List Ev
  | _, 0 => (.fellThrough, [])
  | attempt, fuel + 1 =>
    match o attempt with
    | .success r => (.ok r, [.att attempt])
    | .modelError m => (.modelError m, [.att attempt])
    | .failure m =>
      if attempt < maxRetries - 1 ∧ is_retryable m = true then
        let rest := retryAux o baseDelay maxRetries (attempt + 1) fuel
        (rest.1, .att attempt :: .sleep (baseDelay * 2 ^ attempt) :: rest.2)
      else
        (.raised m, [.att attempt])

/-- Model of `invoke_sagemaker_with_retry`: the attempt loop starts at
attempt 0 with `max_retries` iterations remaining. The endpoint name
and payload are forwarded to the oracle-driven network call. -/
def invoke_sagemaker_with_retry (o : ℕ → Outcome) (baseDelay : ℚ)
    (endpointName : String) (payload : Payload) (maxRetries : ℕ) :
    RetryResult × List Ev :=
  retryAux o baseDelay maxRetries 0 maxRetries

lemma retryAux_trace_head (o : ℕ → Outcome) (bd : ℚ) (mr a fuel : ℕ) (h : 0 < fuel) :
    ∃ t, (retryAux o bd mr a fuel).2 = .att a :: t := by
  cases fuel with
  | zero => exact absurd h (by simp)
  | succ f =>
    cases ho : o a with
    | success r => exact ⟨[], by simp [retryAux, ho]⟩
    | modelError m => exact ⟨[], by simp [retryAux, ho]⟩
    | failure m =>
      by_cases hc : a < mr - 1 ∧ is_retryable m = true
      · exact ⟨.sleep (bd * 2 ^ a) :: (retryAux o bd mr (a + 1) f).2,
          by simp [retryAux, ho, hc]⟩
      · exact ⟨[], by simp [retryAux, ho, hc]⟩

lemma retryAux_modelError_stops (o : ℕ → Outcome) (bd : ℚ) (mr : ℕ) (m : String) :
    ∀ fuel a i, o i = .modelError m → Ev.att i ∈ (retryAux o bd mr a fuel).2 →
      (retryAux o bd mr a fuel).1 = .modelError m ∧
      (retryAux o bd mr a fuel).2.getLast? = some (.att i) := by
  intro fuel
  induction fuel with
  | zero => intro a i _ hmem; simp [retryAux] at hmem
  | succ f ih =>
    intro a i hi hmem
    cases ho : o a with
    | success r =>
      simp only [retryAux, ho] at hmem
      simp only [List.mem_singleton, Ev.att.injEq] at hmem
      subst hmem
      rw [hi] at ho
      exact absurd ho (by simp)
    | modelError m' =>
      simp only [retryAux, ho] at hmem ⊢
      simp only [List.mem_singleton, Ev.att.injEq] at hmem
      subst hmem
      rw [hi] at ho
      obtain rfl : m = m' := by injection ho
      exact ⟨rfl, rfl⟩
    | failure m' =>
      by_cases hc : a < mr - 1 ∧ is_retryable m' = true
      · simp only [retryAux, ho, if_pos hc] at hmem ⊢
        rcases List.mem_cons.mp hmem with h1 | h2
        · obtain rfl : i = a := by injection h1
          rw [hi] at ho
          exact absurd ho (by simp)
        · rcases List.mem_cons.mp h2 with h3 | h4
          · exact absurd h3 (by simp)
          · obtain ⟨hres, hlast⟩ := ih (a + 1) i hi h4
            refine ⟨hres, ?_⟩
            rcases hrest : (retryAux o bd mr (a + 1) f).2 with _ | ⟨e, t⟩
            · rw [hrest] at hlast; simp at hlast
            · rw [hrest] at hlast
              simp [List.getLast?_cons_cons, hlast]
      · simp only [retryAux, ho, if_neg hc] at hmem ⊢
        simp only [List.mem_singleton, Ev.att.injEq] at hmem
        subst hmem
        rw [hi] at ho
        exact absurd ho (by simp)

/-- C1: a terminal failure (a `ModelError` from the endpoint) is
propagated immediately: the attempt that hit it is the last event of
the invocation trace — no further invocation attempt and no backoff
sleep occur after it, even if configured attempts remain — and the
value of the call re-raises that same error. -/
theorem modelError_terminal_no_retry (o : ℕ → Outcome) (baseDelay : ℚ)
    (endpointName : String) (payload : Payload) (maxRetries i : ℕ) (m : String)
    (hi : o i = .modelError m)
    (hmem : Ev.att i ∈ (invoke_sagemaker_with_retry o baseDelay endpointName payload maxRetries).2) :
    (invoke_sagemaker_with_retry o baseDelay endpointName payload maxRetries).1 = .modelError m ∧
    (invoke_sagemaker_with_retry o baseDelay endpointName payload maxRetries).2.getLast? =
      some (.att i) :=
  retryAux_modelError_stops o baseDelay maxRetries m maxRetries 0 i hi hmem

/-- Witness for C1: with every attempt answering `ModelError`, three
configured attempts and base delay 1, the loop performs exactly one
invocation and re-raises the model error. -/
theorem modelError_terminal_no_retry_witness :
    (invoke_sagemaker_with_retry (fun _ => .modelError "model rejected input") 1 "ep"
        { s3_uri := "s3://b/k", confidence := 1 / 2 } 3).1 = .modelError "model rejected input" ∧
    (invoke_sagemaker_with_retry (fun _ => .modelError "model rejected input") 1 "ep"
        { s3_uri := "s3://b/k", confidence := 1 / 2 } 3).2.getLast? = some (.att 0) :=
  modelError_terminal_no_retry _ 1 "ep" _ 3 0 "model rejected input" rfl (by decide)

lemma retryAux_att_count (o : ℕ → Outcome) (bd : ℚ) (mr : ℕ) :
    ∀ fuel a, ((retryAux o bd mr a fuel).2.filter Ev.isAtt).length ≤ fuel := by
  intro fuel
  induction fuel with
  | zero => intro a; simp [retryAux]
  | succ f ih =>
    intro a
    cases ho : o a with
    | success r => simp [retryAux, ho, Ev.isAtt]
    | modelError m => simp [retryAux, ho, Ev.isAtt]
    | failure m =>
      by_cases hc : a < mr - 1 ∧ is_retryable m = true
      · have h := ih (a + 1)
        simp only [retryAux, ho, if_pos hc]
        simp [Ev.isAtt]
        omega
      · simp [retryAux, ho, if_neg hc, Ev.isAtt]

lemma retryAux_transient_adjacent (o : ℕ → Outcome) (bd : ℚ) (mr : ℕ) :
    ∀ fuel a, a + fuel = mr →
      ∀ i m, o i = .failure m → is_retryable m = true → i < mr - 1 →
        Ev.att i ∈ (retryAux o bd mr a fuel).2 →
        ∃ l₁ l₂, (retryAux o bd mr a fuel).2 =
          l₁ ++ Ev.att i :: Ev.sleep (bd * 2 ^ i) :: Ev.att (i + 1) :: l₂ := by
  intro fuel
  induction fuel with
  | zero => intro a _ i m _ _ _ hmem; simp [retryAux] at hmem
  | succ f ih =>
    intro a hinv i m hi hr hlt hmem
    cases ho : o a with
    | success r =>
      simp only [retryAux, ho, List.mem_singleton, Ev.att.injEq] at hmem
      subst hmem; rw [hi] at ho; exact absurd ho (by simp)
    | modelError m' =>
      simp only [retryAux, ho, List.mem_singleton, Ev.att.injEq] at hmem
      subst hmem; rw [hi] at ho; exact absurd ho (by simp)
    | failure m' =>
      by_cases hc : a < mr - 1 ∧ is_retryable m' = true
      · simp only [retryAux, ho, if_pos hc] at hmem ⊢
        rcases List.mem_cons.mp hmem with h1 | h2
        · obtain rfl : i = a := by injection h1
          obtain ⟨t, ht⟩ := retryAux_trace_head o bd mr (i + 1) f (by omega)
          refine ⟨[], t, ?_⟩
          simp [ht]
        · rcases List.mem_cons.mp h2 with h3 | h4
          · exact absurd h3 (by simp)
          · obtain ⟨l₁, l₂, hrest⟩ := ih (a + 1) (by omega) i m hi hr hlt h4
            exact ⟨.att a :: .sleep (bd * 2 ^ a) :: l₁, l₂, by simp [hrest]⟩
      · simp only [retryAux, ho, if_neg hc, List.mem_singleton, Ev.att.injEq] at hmem
        subst hmem
        rw [hi] at ho
        obtain rfl : m = m' := by injection ho
        exact absurd ⟨hlt, hr⟩ hc

lemma retryAux_exhaustion (o : ℕ → Outcome) (bd : ℚ) (mr : ℕ) (msg : ℕ → String) :
    ∀ fuel a, a + fuel = mr → 0 < fuel →
      (∀ i, a ≤ i → i < mr → o i = .failure (msg i) ∧ is_retryable (msg i) = true) →
      (retryAux o bd mr a fuel).1 = .raised (msg (mr - 1)) := by
  intro fuel
  induction fuel with
  | zero => intro a _ h0 _; exact absurd h0 (by simp)
  | succ f ih =>
    intro a hinv _ hall
    obtain ⟨ho, hr⟩ := hall a (le_refl a) (by omega)
    by_cases hlt : a < mr - 1
    · have hc : a < mr - 1 ∧ is_retryable (msg a) = true := ⟨hlt, hr⟩
      simp only [retryAux, ho, if_pos hc]
      exact ih (a + 1) (by omega) (by omega) (fun i h1 h2 => hall i (by omega) h2)
    · have ha : a = mr - 1 := by omega
      have hc : ¬(a < mr - 1 ∧ is_retryable (msg a) = true) := fun h => hlt h.1
      simp only [retryAux, ho, if_neg hc]
      rw [ha]

/-- C2: transient failures are retried with exponential backoff. The
three conjuncts state: (1) the number of invocation events in a trace
never exceeds the configured maximum attempt count; (2) a transient
(retryable) failure on attempt `i` while attempts remain is followed
in the trace by a sleep of exactly `base_delay * 2 ^ i` and then
immediately by attempt `i + 1`; (3) when every configured attempt
fails with a retryable error, the call re-raises the error of the last
attempt, propagating the failure to the caller. -/
theorem transient_retry_backoff (o : ℕ → Outcome) (baseDelay : ℚ)
    (endpointName : String) (payload : Payload) (maxRetries : ℕ) (msg : ℕ → String) :
    ((invoke_sagemaker_with_retry o baseDelay endpointName payload maxRetries).2.filter
        Ev.isAtt).length ≤ maxRetries ∧
    (∀ i m, o i = .failure m → is_retryable m = true → i < maxRetries - 1 →
      Ev.att i ∈ (invoke_sagemaker_with_retry o baseDelay endpointName payload maxRetries).2 →
      ∃ l₁ l₂, (invoke_sagemaker_with_retry o baseDelay endpointName payload maxRetries).2 =
        l₁ ++ Ev.att i :: Ev.sleep (baseDelay * 2 ^ i) :: Ev.att (i + 1) :: l₂) ∧
    ((∀ i, i < maxRetries → o i = .failure (msg i) ∧ is_retryable (msg i) = true) →
      0 < maxRetries →
      (invoke_sagemaker_with_retry o baseDelay endpointName payload maxRetries).1 =
        .raised (msg (maxRetries - 1))) := by
  refine ⟨retryAux_att_count o baseDelay maxRetries maxRetries 0, ?_, ?_⟩
  · intro i m hi hr hlt hmem
    exact retryAux_transient_adjacent o baseDelay maxRetries maxRetries 0 (by omega)
      i m hi hr hlt hmem
  · intro hall hpos
    exact retryAux_exhaustion o baseDelay maxRetries msg maxRetries 0 (by omega) hpos
      (fun i _ h2 => hall i h2)

/-- Witness for C2: with every attempt failing with a throttling
message, two configured attempts and base delay 1, the trace is
attempt 0, a sleep of 1, attempt 1, and the call re-raises the error
of the last attempt. -/
theorem transient_retry_backoff_witness :
    (∃ l₁ l₂, (invoke_sagemaker_with_retry (fun _ => .failure "ThrottlingException") 1 "ep"
        { s3_uri := "s3://b/k", confidence := 1 / 2 } 2).2 =
      l₁ ++ Ev.att 0 :: Ev.sleep (1 * 2 ^ 0) :: Ev.att 1 :: l₂) ∧
    (invoke_sagemaker_with_retry (fun _ => .failure "ThrottlingException") 1 "ep"
        { s3_uri := "s3://b/k", confidence := 1 / 2 } 2).1 = .raised "ThrottlingException" := by
  have h := transient_retry_backoff (fun _ => .failure "ThrottlingException") 1 "ep"
    { s3_uri := "s3://b/k", confidence := 1 / 2 } 2 (fun _ => "ThrottlingException")
  exact ⟨h.2.1 0 "ThrottlingException" rfl (by decide) (by decide) (by decide),
    h.2.2 (fun i _ => ⟨rfl, by decide⟩) (by decide)⟩

/-- Kind of a stored object under a job namespace: the uploaded source
artifact (with its file extension), or one of the three JSON
documents. -/
inductive DocKind
  | original (ext : String)
  | metadata
  | status
  | results
deriving DecidableEq, Repr

/-- Structured S3 object key: every key the handlers build has the
shape `uploads/{session}/{job}/{doc}`, so it is modelled as the triple
and rendered back to the string the source interpolates. -/
structure JobKey where
  session : String
  job : String
  kind : DocKind
deriving DecidableEq, Repr

/-- File name component of a document kind. -/
def DocKind.fileName : DocKind → String
  | .original ext => "original." ++ ext
  | .metadata => "metadata.json"
  | .status => "status.json"
  | .results => "results.json"

/-- The string path of a structured key, exactly as the handlers
interpolate it. -/
def renderKey (k : JobKey) : String :=
  "uploads/" ++ k.session ++ "/" ++ k.job ++ "/" ++ k.kind.fileName

/-- Metadata document written at intake. `s3Key` is optional so that
stores holding a metadata JSON without that field are representable
(the coordinator reads it with `metadata.get('s3Key')`). -/
structure MetaDoc where
  blueprintId : String
  sessionId : String
  fileName : String
  fileSize : ℤ
  format : String
  s3Key : Option String
deriving DecidableEq, Repr

/-- Status document: pipeline position, progress percentage, advisory
remaining time and a human-readable message. -/
structure StatusDoc where
  blueprintId : String
  status : String
  stage : String
  progress : ℕ
  estimatedTimeRemaining : ℕ
  message : String
deriving DecidableEq, Repr

/-- Aggregate statistics block of a results document. -/
structure Stats where
  totalDetections : ℕ
  totalRooms : ℤ
  avgConfidence : ℚ
  elementCounts : List (String × ℕ)
  processingSteps : List String
deriving DecidableEq, Repr

/-- Results document persisted on successful completion. -/
structure ResultsDoc where
  blueprintId : String
  modelVersion : String
  processingTime : ℚ
  detections : List Detection
  statistics : Stats
  dimensions : Option Dims
deriving DecidableEq, Repr

/-- A stored object: one of the three parsed JSON documents, or an
opaque blob (the uploaded image). -/
inductive Doc
  | meta (m : MetaDoc)
  | stat (s : StatusDoc)
  | res (r : ResultsDoc)
  | blob
deriving DecidableEq, Repr

/-- The bucket: a finite association list from keys to stored
objects. -/
def S3 : Type := List (JobKey × Doc)

instance : DecidableEq S3 := by
  unfold S3
  infer_instance

/-- Read an object (`get_object`); `none` models `NoSuchKey`. -/
def s3get (s : S3) (k : JobKey) : Option Doc :=
  match s.find? (fun e => e.1 == k) with
  | some e => some e.2
  | none => none

/-- Write an object wholesale (`put_object`): replaces the stored
object at the key, or appends the key if absent. -/
def s3put (s : S3) (k : JobKey) (d : Doc) : S3 :=
  match s with
  | [] => [(k, d)]
  | e :: rest => if e.1 = k then (k, d) :: rest else e :: s3put rest k d

/-- Apply a list of writes in order. -/
def applyWrites (s : S3) (ws : List (JobKey × Doc)) : S3 :=
  ws.foldl (fun acc w => s3put acc w.1 w.2) s

/-- Page size cap of `list_objects_v2` in the lookup handlers
(`MaxKeys=100`). -/
def listLimit : ℕ := 100

/-- The keys of an S3 list. -/
def s3keys (s : S3) : List JobKey := s.map Prod.fst

/-- The `list_objects_v2(Prefix='uploads/', MaxKeys=100)` listing over
a key population: the keys whose rendered path starts with `uploads/`
(all of them, by construction), capped at the page size. The listing
order is the store order; S3 ordering is an external property of the
collaborating store. -/
def objectListing (keys : List JobKey) : List JobKey :=
  (keys.filter (fun k => decide ("uploads/".data <+: (renderKey k).data))).take listLimit

/-- The linear scan of the lookup handlers: the first listed key whose
rendered path contains the blueprint id and ends with the wanted
document suffix. -/
def findKeyIn (keys : List JobKey) (bid sfx : String) : Option JobKey :=
  (objectListing keys).find? (fun k => pyIn bid (renderKey k) && strEndsWith (renderKey k) sfx)

/-- The scan applied to a store. -/
def findKey (s : S3) (bid sfx : String) : Option JobKey :=
  findKeyIn (s3keys s) bid sfx

/-- Bucket name used by every handler (environment default). -/
def BUCKET_NAME : String := "innergy-blueprints-dev"

/-- Endpoint name used by the coordinator (environment default). -/
def SAGEMAKER_ENDPOINT : String := "yolov5-blueprint-detector"

/-- Model version the coordinator stamps into results (environment
default). -/
def MODEL_VERSION : String := "yolov5-v1.0"

namespace UploadHandler

/-- Response body variants of `upload_handler.lambda_handler`. -/
inductive Body
  | missingFields
  | invalidType
  | tooLarge
  | ok (blueprintId uploadUrl s3Key : String)
deriving DecidableEq, Repr

/-- Initial status document written at intake (progress 10). -/
def st10 (bid : String) : StatusDoc :=
  { blueprintId := bid
    status := "processing"
    stage := "upload"
    progress := 10
    estimatedTimeRemaining := 20
    message := "Blueprint uploaded, preparing for processing..." }

/-- Intake (`upload_handler.lambda_handler`). Arguments are the parsed
request fields (`.get` results, hence optional), the hex of the
generated UUID and the presigned URL the storage service answers.
Returns the HTTP status code, the body and the ordered writes
(metadata then initial status). -/
def lambda_handler (fileName fileType : Option String) (fileSize : Option ℤ)
    (sessionId : Option String) (uuidHex presignedUrl : String) :
    (ℕ × Body) × List (JobKey × Doc) :=
  if !(optStrTruthy fileName && optStrTruthy fileType &&
       optIntTruthy fileSize && optStrTruthy sessionId) then
    ((400, .missingFields), [])
  else
    let file_name := fileName.getD ""
    let file_type := fileType.getD ""
    let file_size := fileSize.getD 0
    let session_id := sessionId.getD ""
    if file_type ∉ (["image/png", "image/jpeg", "image/jpg", "application/pdf"] : List String) then
      ((400, .invalidType), [])
    else if file_size > 10 * 1024 * 1024 then
      ((400, .tooLarge), [])
    else
      let blueprint_id := "blueprint-" ++ uuidHex.take 12
      let file_extension := (file_name.splitOn ".").getLastD ""
      let s3_key := renderKey ⟨session_id, blueprint_id, .original file_extension⟩
      let metadata : MetaDoc :=
        { blueprintId := blueprint_id
          sessionId := session_id
          fileName := file_name
          fileSize := file_size
          format := file_extension
          s3Key := some s3_key }
      ((200, .ok blueprint_id presignedUrl s3_key),
        [(⟨session_id, blueprint_id, .metadata⟩, .meta metadata),
         (⟨session_id, blueprint_id, .status⟩, .stat (st10 blueprint_id))])

end UploadHandler

/-- Read the `s3Key` field of a parsed JSON object
(`metadata.get('s3Key')`): only a metadata document carries one. -/
def docS3Key : Doc → Option String
  | .meta m => m.s3Key
  | _ => none

/-- Python dict increment `d[c] = d.get(c, 0) + 1` on an
insertion-ordered association list. -/
def bumpClass (acc : List (String × ℕ)) (c : String) : List (String × ℕ) :=
  match acc with
  | [] => [(c, 1)]
  | (k, n) :: rest => if k = c then (k, n + 1) :: rest else (k, n) :: bumpClass rest c

/-- Per-class detection counts of the coordinator: group by the
`class` field, with a missing label falling into the literal
`unknown` bucket. -/
def countClasses (dets : List Detection) : List (String × ℕ) :=
  dets.foldl (fun acc d => bumpClass acc (d.cls.getD "unknown")) []

namespace InferenceHandler

/-- Response body variants of `inference_handler.lambda_handler`. -/
inductive Body
  | missingFields
  | metadataNotFound
  | success (blueprintId : String) (results : ResultsDoc)
  | modelFailed (details : String)
  | invokeFailed (details : String)
  | internalError (details : String)
deriving DecidableEq, Repr

/-- Status document written on a failure transition: terminal
`failed`, progress reset to 0, diagnostic message. -/
def failedStatus (bid msg : String) : StatusDoc :=
  { blueprintId := bid
    status := "failed"
    stage := "failed"
    progress := 0
    estimatedTimeRemaining := 0
    message := msg }

/-- Message of the AttributeError raised when the retry loop body
never ran and the call returned None (the quote characters of the
Python rendering are omitted). -/
def noneTypeGetMsg : String := "NoneType object has no attribute get"

/-- Preprocessing status document (progress 25). -/
def st25 (bid : String) : StatusDoc :=
  { blueprintId := bid
    status := "processing"
    stage := "preprocessing"
    progress := 25
    estimatedTimeRemaining := 15
    message := "Preparing image for inference..." }

/-- Inference status document (progress 50). -/
def st50 (bid : String) : StatusDoc :=
  { blueprintId := bid
    status := "processing"
    stage := "inference"
    progress := 50
    estimatedTimeRemaining := 10
    message := "Running AI model inference..." }

/-- Postprocess status document (progress 75). -/
def st75 (bid : String) : StatusDoc :=
  { blueprintId := bid
    status := "processing"
    stage := "postprocess"
    progress := 75
    estimatedTimeRemaining := 5
    message := "Finalizing detection results..." }

/-- Terminal success status document (progress 100). -/
def st100 (bid : String) : StatusDoc :=
  { blueprintId := bid
    status := "completed"
    stage := "complete"
    progress := 100
    estimatedTimeRemaining := 0
    message := "Processing completed successfully" }

/-- The results document formatted by the coordinator from the
endpoint response: model version stamp, rounded processing time, the
detections as returned, and the aggregate statistics block. -/
def formatResults (bid : String) (result : SMResponse) (elapsed : ℚ) : ResultsDoc :=
  let detections := result.detections.getD []
  { blueprintId := bid
    modelVersion := MODEL_VERSION
    processingTime := pyRound elapsed 2
    detections := detections
    statistics :=
      { totalDetections := detections.length
        totalRooms := result.totalRooms.getD 0
        avgConfidence := pyRound (result.avgConfidence.getD 0) 2
        elementCounts := countClasses detections
        processingSteps := ["upload", "inference", "postprocess"] }
    dimensions := result.dimensions }

/-- Body of the coordinator past the request-field check: resolve the
metadata (step 1), build the payload, advance the status through the
stages around the retried invocation, and persist results or record
the failure. The absent/empty `s3Key` paths model the `ValueError`
that the outer generic exception handler turns into a bare HTTP 500
with no write. -/
def runPipeline (blueprint_id session_id : String) (confidence : Option ℚ)
    (o : ℕ → Outcome) (baseDelay : ℚ) (maxRetries : ℕ) (elapsed : ℚ) (store : S3) :
    (ℕ × Body) × List (JobKey × Doc) :=
  match s3get store ⟨session_id, blueprint_id, .metadata⟩ with
  | none => ((404, .metadataNotFound), [])
  | some d =>
    match docS3Key d with
    | none => ((500, .internalError "S3 key not found in metadata"), [])
    | some s3_key =>
      if s3_key = "" then
        ((500, .internalError "S3 key not found in metadata"), [])
      else
        let payload : Payload :=
          { s3_uri := "s3://" ++ BUCKET_NAME ++ "/" ++ s3_key
            confidence := confidence.getD (1 / 2) }
        match (invoke_sagemaker_with_retry o baseDelay SAGEMAKER_ENDPOINT payload maxRetries).1 with
        | .ok result =>
          let formatted_results := formatResults blueprint_id result elapsed
          ((200, .success blueprint_id formatted_results),
            [(⟨session_id, blueprint_id, .status⟩, .stat (st25 blueprint_id)),
             (⟨session_id, blueprint_id, .status⟩, .stat (st50 blueprint_id)),
             (⟨session_id, blueprint_id, .status⟩, .stat (st75 blueprint_id)),
             (⟨session_id, blueprint_id, .results⟩, .res formatted_results),
             (⟨session_id, blueprint_id, .status⟩, .stat (st100 blueprint_id))])
        | .modelError m =>
          ((500, .modelFailed m),
            [(⟨session_id, blueprint_id, .status⟩, .stat (st25 blueprint_id)),
             (⟨session_id, blueprint_id, .status⟩, .stat (st50 blueprint_id)),
             (⟨session_id, blueprint_id, .status⟩,
               .stat (failedStatus blueprint_id ("Model inference failed: " ++ m)))])
        | .raised m =>
          ((500, .invokeFailed m),
            [(⟨session_id, blueprint_id, .status⟩, .stat (st25 blueprint_id)),
             (⟨session_id, blueprint_id, .status⟩, .stat (st50 blueprint_id)),
             (⟨session_id, blueprint_id, .status⟩,
               .stat (failedStatus blueprint_id ("Failed to invoke SageMaker endpoint: " ++ m)))])
        | .fellThrough =>
          ((500, .invokeFailed noneTypeGetMsg),
            [(⟨session_id, blueprint_id, .status⟩, .stat (st25 blueprint_id)),
             (⟨session_id, blueprint_id, .status⟩, .stat (st50 blueprint_id)),
             (⟨session_id, blueprint_id, .status⟩, .stat (st75 blueprint_id)),
             (⟨session_id, blueprint_id, .status⟩,
               .stat (failedStatus blueprint_id
                 ("Failed to invoke SageMaker endpoint: " ++ noneTypeGetMsg)))])

/-- The pipeline coordinator (`inference_handler.lambda_handler`).
Arguments: the parsed request fields, the endpoint oracle with the
backoff base delay and configured attempt count, the elapsed
wall-clock processing time as an oracle, and the store. Returns the
HTTP status code, the body and the ordered list of writes the
invocation performs; the resulting store is `applyWrites store` of
those writes (all reads happen before the first write). -/
def lambda_handler (blueprintId sessionId : Option String) (confidence : Option ℚ)
    (o : ℕ → Outcome) (baseDelay : ℚ) (maxRetries : ℕ) (elapsed : ℚ) (store : S3) :
    (ℕ × Body) × List (JobKey × Doc) :=
  if !(optStrTruthy blueprintId && optStrTruthy sessionId) then
    ((400, .missingFields), [])
  else
    runPipeline (blueprintId.getD "") (sessionId.getD "") confidence o baseDelay maxRetries
      elapsed store

end InferenceHandler

namespace StatusHandler

/-- Response body variants of `status_handler.lambda_handler`. -/
inductive Body
  | missingParam
  | okDoc (d : Doc)
  | synthesized (s : StatusDoc)
  | notFound
deriving DecidableEq, Repr

/-- Status query (`status_handler.lambda_handler`): scan the listing
for this blueprint id and the status suffix; when no status document
is found, fall back to the results suffix and synthesize a terminal
status; when neither is found, answer not-found. -/
def lambda_handler (blueprintId : Option String) (store : S3) : ℕ × Body :=
  if !(optStrTruthy blueprintId) then (400, .missingParam)
  else
    let blueprint_id := blueprintId.getD ""
    match findKey store blueprint_id "status.json" with
    | some status_key =>
      match s3get store status_key with
      | some d => (200, .okDoc d)
      | none => (404, .notFound)
    | none =>
      match findKey store blueprint_id "results.json" with
      | some _ =>
        (200, .synthesized
          { blueprintId := blueprint_id
            status := "completed"
            stage := "complete"
            progress := 100
            estimatedTimeRemaining := 0
            message := "Processing completed successfully" })
      | none => (404, .notFound)

end StatusHandler

namespace ResultsHandler

/-- Response body variants of `results_handler.lambda_handler`. -/
inductive Body
  | missingParam
  | okDoc (d : Doc)
  | notFound
deriving DecidableEq, Repr

/-- Results query (`results_handler.lambda_handler`): scan the listing
for this blueprint id and the results suffix; answer the stored
document, or not-found. -/
def lambda_handler (blueprintId : Option String) (store : S3) : ℕ × Body :=
  if !(optStrTruthy blueprintId) then (400, .missingParam)
  else
    let blueprint_id := blueprintId.getD ""
    match findKey store blueprint_id "results.json" with
    | some results_key =>
      match s3get store results_key with
      | some d => (200, .okDoc d)
      | none => (404, .notFound)
    | none => (404, .notFound)

end ResultsHandler

lemma s3get_put_self (s : S3) (k : JobKey) (d : Doc) : s3get (s3put s k d) k = some d := by
  induction s with
  | nil => simp [s3put, s3get]
  | cons e rest ih =>
    by_cases he : e.1 = k
    · simp [s3put, he, s3get]
    · simp only [s3put, if_neg he]
      simp only [s3get, List.find?_cons]
      rw [show (e.1 == k) = false by simp [he]]
      exact ih

lemma s3get_put_other (s : S3) (k k' : JobKey) (d : Doc) (h : k' ≠ k) :
    s3get (s3put s k d) k' = s3get s k' := by
  induction s with
  | nil =>
    simp only [s3put, s3get, List.find?_cons, List.find?_nil]
    rw [show (k == k') = false by simp [Ne.symm h]]
  | cons e rest ih =>
    by_cases he : e.1 = k
    · simp only [s3put, if_pos he, s3get, List.find?_cons]
      rw [show (k == k') = false by simp [Ne.symm h], show (e.1 == k') = false by simp [he, Ne.symm h]]
    · simp only [s3put, if_neg he, s3get, List.find?_cons]
      cases hek : (e.1 == k') with
      | true => rfl
      | false => exact ih

lemma s3keys_put_of_mem (s : S3) (k : JobKey) (d : Doc) (h : k ∈ s3keys s) :
    s3keys (s3put s k d) = s3keys s := by
  induction s with
  | nil => simp [s3keys] at h
  | cons e rest ih =>
    by_cases he : e.1 = k
    · simp [s3put, he, s3keys]
    · have hmem : k ∈ s3keys rest := by
        simp only [s3keys, List.map_cons, List.mem_cons] at h
        rcases h with h | h
        · exact absurd h.symm he
        · exact h
      simp only [s3put, if_neg he, s3keys, List.map_cons]
      rw [show List.map Prod.fst (s3put rest k d) = s3keys (s3put rest k d) from rfl,
        ih hmem]
      rfl

lemma findKey_eq_of_keys_eq (s s' : S3) (bid sfx : String) (h : s3keys s = s3keys s') :
    findKey s bid sfx = findKey s' bid sfx := by
  unfold findKey
  rw [h]

lemma s3get_applyWrites_of_not_written (s : S3) (ws : List (JobKey × Doc)) (k : JobKey)
    (h : ∀ w ∈ ws, w.1 ≠ k) :
    s3get (applyWrites s ws) k = s3get s k := by
  induction ws generalizing s with
  | nil => rfl
  | cons w rest ih =>
    have hw : w.1 ≠ k := h w (List.mem_cons_self w rest)
    have hrest : ∀ w' ∈ rest, w'.1 ≠ k := fun w' hm => h w' (List.mem_cons_of_mem w hm)
    show s3get (applyWrites (s3put s w.1 w.2) rest) k = s3get s k
    rw [ih (s3put s w.1 w.2) hrest, s3get_put_other s w.1 k w.2 (Ne.symm hw)]

lemma renderKey_ne_empty (k : JobKey) : renderKey k ≠ "" := by
  intro h
  have hd : (renderKey k).data = [] := congrArg String.data h
  rw [renderKey] at hd
  simp only [String.data_append, List.append_eq_nil] at hd
  exact absurd hd.1.1.1.1.1 (by decide)

/-- C10: an intake request in which any of `fileName`, `fileType`,
`fileSize`, `sessionId` is falsy — absent, an empty string, or a
declared size of 0 — is rejected with the missing-required-fields
validation error and performs no write, even when the field is
syntactically present. -/
theorem intake_falsy_field_rejected (fileName fileType : Option String)
    (fileSize : Option ℤ) (sessionId : Option String) (uuidHex presignedUrl : String)
    (h : ¬(optStrTruthy fileName = true ∧ optStrTruthy fileType = true ∧
           optIntTruthy fileSize = true ∧ optStrTruthy sessionId = true)) :
    UploadHandler.lambda_handler fileName fileType fileSize sessionId uuidHex presignedUrl =
      ((400, .missingFields), []) := by
  cases hb : (optStrTruthy fileName && optStrTruthy fileType && optIntTruthy fileSize &&
      optStrTruthy sessionId) with
  | false => simp [UploadHandler.lambda_handler, hb]
  | true =>
    simp only [Bool.and_eq_true] at hb
    exact absurd ⟨hb.1.1.1, hb.1.1.2, hb.1.2, hb.2⟩ h

/-- Witness for C10: a request whose declared size is the falsy 0 is
rejected as missing-required-fields with no write. -/
theorem intake_falsy_field_rejected_witness :
    UploadHandler.lambda_handler (some "plan.png") (some "image/png") (some 0) (some "s1")
        "abcdef123456" "https://upload" = ((400, .missingFields), []) :=
  intake_falsy_field_rejected (some "plan.png") (some "image/png") (some 0) (some "s1")
    "abcdef123456" "https://upload" (by decide)

/-- C8: an intake request whose MIME type is outside the allow-list or
whose declared size strictly exceeds the 10 MiB cap is rejected with a
validation error (HTTP 400) and performs no Metadata or Status write:
no state is mutated before the rejection. -/
theorem intake_invalid_type_or_size_rejected (fileName fileType : Option String)
    (fileSize : Option ℤ) (sessionId : Option String) (uuidHex presignedUrl : String)
    (h : (∀ t, fileType = some t →
            t ∉ (["image/png", "image/jpeg", "image/jpg", "application/pdf"] : List String)) ∨
         (∃ n, fileSize = some n ∧ n > 10 * 1024 * 1024)) :
    (UploadHandler.lambda_handler fileName fileType fileSize sessionId uuidHex
        presignedUrl).1.1 = 400 ∧
    (UploadHandler.lambda_handler fileName fileType fileSize sessionId uuidHex
        presignedUrl).2 = [] := by
  cases hb : (optStrTruthy fileName && optStrTruthy fileType && optIntTruthy fileSize &&
      optStrTruthy sessionId) with
  | false =>
    constructor <;> simp [UploadHandler.lambda_handler, hb]
  | true =>
    have hb' := hb
    simp only [Bool.and_eq_true] at hb'
    obtain ⟨⟨⟨h1, h2⟩, h3⟩, h4⟩ := hb'
    rcases fileType with _ | t
    · simp [optStrTruthy] at h2
    rcases fileSize with _ | n
    · simp [optIntTruthy] at h3
    by_cases hmem : t ∈ (["image/png", "image/jpeg", "image/jpg",
        "application/pdf"] : List String)
    · have hn : (10 * 1024 * 1024 : ℤ) < n := by
        rcases h with h | ⟨n', hn', hgt⟩
        · exact absurd hmem (h t rfl)
        · have hnn : n = n' := by injection hn'
          omega
      have hn' : (10485760 : ℤ) < n := by norm_num at hn; exact hn
      constructor <;> simp [UploadHandler.lambda_handler, hb, hmem, hn']
    · constructor <;> simp [UploadHandler.lambda_handler, hb, hmem]

/-- Witness for C8: an 11-megabyte request (the scenario D input) is
rejected with HTTP 400 and no write. -/
theorem intake_invalid_type_or_size_rejected_witness :
    (UploadHandler.lambda_handler (some "plan.png") (some "image/png") (some 11000000)
        (some "s1") "abcdef123456" "https://upload").1.1 = 400 ∧
    (UploadHandler.lambda_handler (some "plan.png") (some "image/png") (some 11000000)
        (some "s1") "abcdef123456" "https://upload").2 = [] :=
  intake_invalid_type_or_size_rejected (some "plan.png") (some "image/png") (some 11000000)
    (some "s1") "abcdef123456" "https://upload" (Or.inr ⟨11000000, rfl, by norm_num⟩)

/-- Store of the C3 scenario: the job records were created (metadata
and the intake status at progress 10), but the metadata JSON carries
no `s3Key` field, so step 1 of the coordinator raises. -/
def brokenMetaStore : S3 :=
  [(⟨"s1", "b1", .metadata⟩, .meta
      { blueprintId := "b1"
        sessionId := "s1"
        fileName := "plan.png"
        fileSize := 1024
        format := "png"
        s3Key := none }),
   (⟨"s1", "b1", .status⟩, .stat
      { blueprintId := "b1"
        status := "processing"
        stage := "upload"
        progress := 10
        estimatedTimeRemaining := 20
        message := "Blueprint uploaded, preparing for processing..." })]

/-- C3 fails on the code: a run-trigger invocation on a job whose
records were created but whose metadata lacks the `s3Key` field
raises inside step 1, and the outer exception handler returns HTTP
500 `Internal server error` without performing any write — so after
the invocation has exited, the Status document is still
`status=processing, stage=upload, progress=10` instead of the
`failed` transition the claim requires. -/
theorem step12_exception_leaves_processing_status :
    InferenceHandler.lambda_handler (some "b1") (some "s1") none (fun _ => .failure "x")
        1 3 0 brokenMetaStore =
      ((500, .internalError "S3 key not found in metadata"), []) ∧
    s3get (applyWrites brokenMetaStore
        (InferenceHandler.lambda_handler (some "b1") (some "s1") none (fun _ => .failure "x")
          1 3 0 brokenMetaStore).2) ⟨"s1", "b1", .status⟩ =
      some (.stat
        { blueprintId := "b1"
          status := "processing"
          stage := "upload"
          progress := 10
          estimatedTimeRemaining := 20
          message := "Blueprint uploaded, preparing for processing..." }) := by
  constructor <;> decide

lemma inference_truthy_eq (bid sid : String) (confidence : Option ℚ) (o : ℕ → Outcome)
    (bd : ℚ) (mr : ℕ) (elapsed : ℚ) (store : S3) (hb : bid ≠ "") (hs : sid ≠ "") :
    InferenceHandler.lambda_handler (some bid) (some sid) confidence o bd mr elapsed store =
      InferenceHandler.runPipeline bid sid confidence o bd mr elapsed store := by
  unfold InferenceHandler.lambda_handler
  simp [optStrTruthy, hb, hs]

lemma runPipeline_success_eq (bid sid : String) (confidence : Option ℚ) (o : ℕ → Outcome)
    (bd : ℚ) (mr : ℕ) (elapsed : ℚ) (store : S3) (d : Doc) (sk : String) (result : SMResponse)
    (hmeta : s3get store ⟨sid, bid, DocKind.metadata⟩ = some d)
    (hsk : docS3Key d = some sk) (hsk0 : sk ≠ "")
    (hinv : (retryAux o bd mr 0 mr).1 = RetryResult.ok result) :
    InferenceHandler.runPipeline bid sid confidence o bd mr elapsed store =
      ((200, .success bid (InferenceHandler.formatResults bid result elapsed)),
        [(⟨sid, bid, DocKind.status⟩, .stat (InferenceHandler.st25 bid)),
         (⟨sid, bid, DocKind.status⟩, .stat (InferenceHandler.st50 bid)),
         (⟨sid, bid, DocKind.status⟩, .stat (InferenceHandler.st75 bid)),
         (⟨sid, bid, DocKind.results⟩, .res (InferenceHandler.formatResults bid result elapsed)),
         (⟨sid, bid, DocKind.status⟩, .stat (InferenceHandler.st100 bid))]) := by
  unfold InferenceHandler.runPipeline
  simp only [hmeta, hsk, if_neg hsk0, invoke_sagemaker_with_retry, hinv]

lemma runPipeline_modelError_eq (bid sid : String) (confidence : Option ℚ) (o : ℕ → Outcome)
    (bd : ℚ) (mr : ℕ) (elapsed : ℚ) (store : S3) (d : Doc) (sk m : String)
    (hmeta : s3get store ⟨sid, bid, DocKind.metadata⟩ = some d)
    (hsk : docS3Key d = some sk) (hsk0 : sk ≠ "")
    (hinv : (retryAux o bd mr 0 mr).1 = RetryResult.modelError m) :
    InferenceHandler.runPipeline bid sid confidence o bd mr elapsed store =
      ((500, .modelFailed m),
        [(⟨sid, bid, DocKind.status⟩, .stat (InferenceHandler.st25 bid)),
         (⟨sid, bid, DocKind.status⟩, .stat (InferenceHandler.st50 bid)),
         (⟨sid, bid, DocKind.status⟩,
           .stat (InferenceHandler.failedStatus bid ("Model inference failed: " ++ m)))]) := by
  unfold InferenceHandler.runPipeline
  simp only [hmeta, hsk, if_neg hsk0, invoke_sagemaker_with_retry, hinv]

lemma runPipeline_raised_eq (bid sid : String) (confidence : Option ℚ) (o : ℕ → Outcome)
    (bd : ℚ) (mr : ℕ) (elapsed : ℚ) (store : S3) (d : Doc) (sk m : String)
    (hmeta : s3get store ⟨sid, bid, DocKind.metadata⟩ = some d)
    (hsk : docS3Key d = some sk) (hsk0 : sk ≠ "")
    (hinv : (retryAux o bd mr 0 mr).1 = RetryResult.raised m) :
    InferenceHandler.runPipeline bid sid confidence o bd mr elapsed store =
      ((500, .invokeFailed m),
        [(⟨sid, bid, DocKind.status⟩, .stat (InferenceHandler.st25 bid)),
         (⟨sid, bid, DocKind.status⟩, .stat (InferenceHandler.st50 bid)),
         (⟨sid, bid, DocKind.status⟩,
           .stat (InferenceHandler.failedStatus bid
             ("Failed to invoke SageMaker endpoint: " ++ m)))]) := by
  unfold InferenceHandler.runPipeline
  simp only [hmeta, hsk, if_neg hsk0, invoke_sagemaker_with_retry, hinv]

lemma runPipeline_writes_kinds (bid sid : String) (confidence : Option ℚ) (o : ℕ → Outcome)
    (bd : ℚ) (mr : ℕ) (elapsed : ℚ) (store : S3) :
    ∀ w ∈ (InferenceHandler.runPipeline bid sid confidence o bd mr elapsed store).2,
      w.1.kind = DocKind.status ∨ w.1.kind = DocKind.results := by
  unfold InferenceHandler.runPipeline
  split
  · simp
  · split
    · simp
    · split
      · simp
      · rcases hr : (retryAux o bd mr 0 mr).1 with r | m | m | _ <;>
          (simp only [invoke_sagemaker_with_retry, hr]; rintro w hw; fin_cases hw <;> simp)

lemma inference_writes_kinds (blueprintId sessionId : Option String) (confidence : Option ℚ)
    (o : ℕ → Outcome) (bd : ℚ) (mr : ℕ) (elapsed : ℚ) (store : S3) :
    ∀ w ∈ (InferenceHandler.lambda_handler blueprintId sessionId confidence o bd mr
        elapsed store).2,
      w.1.kind = DocKind.status ∨ w.1.kind = DocKind.results := by
  unfold InferenceHandler.lambda_handler
  split
  · simp
  · exact runPipeline_writes_kinds _ _ confidence o bd mr elapsed store

lemma s3keys_applyWrites_of_mem (s : S3) (ws : List (JobKey × Doc))
    (h : ∀ w ∈ ws, w.1 ∈ s3keys s) :
    s3keys (applyWrites s ws) = s3keys s := by
  induction ws generalizing s with
  | nil => rfl
  | cons w rest ih =>
    have hw := h w (List.mem_cons_self w rest)
    have hkey : s3keys (s3put s w.1 w.2) = s3keys s := s3keys_put_of_mem s w.1 w.2 hw
    show s3keys (applyWrites (s3put s w.1 w.2) rest) = s3keys s
    rw [ih (s3put s w.1 w.2)
      (fun w' hm => by rw [hkey]; exact h w' (List.mem_cons_of_mem w hm)), hkey]

/-- C9: a coordinator run writes only Status and Results documents —
every performed write targets a `status` or `results` key — and the
Metadata document of every job reads back unchanged after the run,
whatever the request, the store contents, the endpoint behaviour and
the taken path. -/
theorem coordinator_never_rewrites_metadata (blueprintId sessionId : Option String)
    (confidence : Option ℚ) (o : ℕ → Outcome) (bd : ℚ) (mr : ℕ) (elapsed : ℚ) (store : S3) :
    (∀ w ∈ (InferenceHandler.lambda_handler blueprintId sessionId confidence o bd mr
        elapsed store).2, w.1.kind = DocKind.status ∨ w.1.kind = DocKind.results) ∧
    (∀ sess job, s3get (applyWrites store (InferenceHandler.lambda_handler blueprintId
        sessionId confidence o bd mr elapsed store).2) ⟨sess, job, DocKind.metadata⟩ =
      s3get store ⟨sess, job, DocKind.metadata⟩) := by
  refine ⟨inference_writes_kinds blueprintId sessionId confidence o bd mr elapsed store, ?_⟩
  intro sess job
  apply s3get_applyWrites_of_not_written
  intro w hw heq
  rcases inference_writes_kinds blueprintId sessionId confidence o bd mr elapsed store w hw
    with h | h <;> (rw [heq] at h; simp at h)

/-- Store with a complete, well-formed job record for `(s1, b1)`:
metadata with a valid `s3Key` and the intake status at progress 10. -/
def okStore : S3 :=
  [(⟨"s1", "b1", .metadata⟩, .meta
      { blueprintId := "b1"
        sessionId := "s1"
        fileName := "plan.png"
        fileSize := 1024
        format := "png"
        s3Key := some "uploads/s1/b1/original.png" }),
   (⟨"s1", "b1", .status⟩, .stat
      { blueprintId := "b1"
        status := "processing"
        stage := "upload"
        progress := 10
        estimatedTimeRemaining := 20
        message := "Blueprint uploaded, preparing for processing..." })]

/-- Witness for C9: on a failing run over a concrete store, the first
performed write targets the status key, and the metadata document
reads back unchanged. -/
theorem coordinator_never_rewrites_metadata_witness :
    (((⟨"s1", "b1", DocKind.status⟩ : JobKey), Doc.stat (InferenceHandler.st25 "b1")).1.kind =
        DocKind.status ∨
     ((⟨"s1", "b1", DocKind.status⟩ : JobKey), Doc.stat (InferenceHandler.st25 "b1")).1.kind =
        DocKind.results) ∧
    s3get (applyWrites okStore (InferenceHandler.lambda_handler (some "b1") (some "s1") none
        (fun _ => Outcome.modelError "bad input") 1 3 0 okStore).2)
        ⟨"s1", "b1", DocKind.metadata⟩ =
      s3get okStore ⟨"s1", "b1", DocKind.metadata⟩ :=
  ⟨(coordinator_never_rewrites_metadata (some "b1") (some "s1") none
      (fun _ => Outcome.modelError "bad input") 1 3 0 okStore).1
      ((⟨"s1", "b1", DocKind.status⟩ : JobKey), Doc.stat (InferenceHandler.st25 "b1"))
      (by decide),
   (coordinator_never_rewrites_metadata (some "b1") (some "s1") none
      (fun _ => Outcome.modelError "bad input") 1 3 0 okStore).2 "s1" "b1"⟩

/-- C7: a status lookup by job identifier alone synthesizes a
terminal `completed / complete / 100` status when no status document
is found in the listing but a results document is, and answers
not-found when neither is found. -/
theorem status_lookup_synthesized_or_notfound (store : S3) (bid : String) (hb : bid ≠ "") :
    findKey store bid "status.json" = none →
      (findKey store bid "results.json" ≠ none →
        StatusHandler.lambda_handler (some bid) store =
          (200, .synthesized
            { blueprintId := bid
              status := "completed"
              stage := "complete"
              progress := 100
              estimatedTimeRemaining := 0
              message := "Processing completed successfully" })) ∧
      (findKey store bid "results.json" = none →
        StatusHandler.lambda_handler (some bid) store = (404, .notFound)) := by
  intro hstat
  constructor
  · intro hres
    rcases hr : findKey store bid "results.json" with _ | k
    · exact absurd hr hres
    · unfold StatusHandler.lambda_handler
      simp [optStrTruthy, hb, hstat, hr]
  · intro hres
    unfold StatusHandler.lambda_handler
    simp [optStrTruthy, hb, hstat, hres]

/-- Results document used by concrete stores in witnesses. -/
def sampleResults : ResultsDoc :=
  { blueprintId := "blueprint-feedc0de0000"
    modelVersion := MODEL_VERSION
    processingTime := 1
    detections := []
    statistics :=
      { totalDetections := 0
        totalRooms := 0
        avgConfidence := 0
        elementCounts := []
        processingSteps := ["upload", "inference", "postprocess"] }
    dimensions := none }

/-- Store holding only a results document for its job, no status. -/
def resultsOnlyStore : S3 :=
  [(⟨"s1", "blueprint-feedc0de0000", .results⟩, .res sampleResults)]

/-- Witness for C7: on a store holding only a results document the
lookup synthesizes the terminal status, and on an empty store it
answers not-found. -/
theorem status_lookup_synthesized_or_notfound_witness :
    StatusHandler.lambda_handler (some "blueprint-feedc0de0000") resultsOnlyStore =
      (200, .synthesized
        { blueprintId := "blueprint-feedc0de0000"
          status := "completed"
          stage := "complete"
          progress := 100
          estimatedTimeRemaining := 0
          message := "Processing completed successfully" }) ∧
    StatusHandler.lambda_handler (some "blueprint-feedc0de0000") ([] : S3) = (404, .notFound) :=
  ⟨((status_lookup_synthesized_or_notfound resultsOnlyStore "blueprint-feedc0de0000"
      (by decide)) (by decide)).1 (by decide),
   ((status_lookup_synthesized_or_notfound ([] : S3) "blueprint-feedc0de0000"
      (by decide)) (by decide)).2 (by decide)⟩

/-- C6: when the retried invocation ends in a terminal model error or
in exhaustion (a re-raised error), the run answers HTTP 500, every
write targets the job status key (nothing is persisted to Results),
the final status document is `failed` with progress 0 and a diagnostic
message, and a subsequent results query on the resulting store answers
not-found. -/
theorem terminal_failure_fails_job (bid sid : String) (confidence : Option ℚ)
    (o : ℕ → Outcome) (bd : ℚ) (mr : ℕ) (elapsed : ℚ) (store : S3) (d : Doc) (sk em : String)
    (hb : bid ≠ "") (hs : sid ≠ "")
    (hmeta : s3get store ⟨sid, bid, DocKind.metadata⟩ = some d)
    (hsk : docS3Key d = some sk) (hsk0 : sk ≠ "")
    (hinv : (retryAux o bd mr 0 mr).1 = RetryResult.modelError em ∨
            (retryAux o bd mr 0 mr).1 = RetryResult.raised em)
    (hstat : (⟨sid, bid, DocKind.status⟩ : JobKey) ∈ s3keys store)
    (hnores : findKey store bid "results.json" = none) :
    (InferenceHandler.lambda_handler (some bid) (some sid) confidence o bd mr elapsed
        store).1.1 = 500 ∧
    (∀ w ∈ (InferenceHandler.lambda_handler (some bid) (some sid) confidence o bd mr elapsed
        store).2, w.1 = (⟨sid, bid, DocKind.status⟩ : JobKey)) ∧
    (∃ msg, s3get (applyWrites store (InferenceHandler.lambda_handler (some bid) (some sid)
        confidence o bd mr elapsed store).2) ⟨sid, bid, DocKind.status⟩ =
      some (.stat
        { blueprintId := bid
          status := "failed"
          stage := "failed"
          progress := 0
          estimatedTimeRemaining := 0
          message := msg })) ∧
    ResultsHandler.lambda_handler (some bid) (applyWrites store
      (InferenceHandler.lambda_handler (some bid) (some sid) confidence o bd mr elapsed
        store).2) = (404, .notFound) := by
  obtain ⟨rb, msg, heq⟩ :
      ∃ rb msg, InferenceHandler.runPipeline bid sid confidence o bd mr elapsed store =
        ((500, rb),
          [(⟨sid, bid, DocKind.status⟩, Doc.stat (InferenceHandler.st25 bid)),
           (⟨sid, bid, DocKind.status⟩, Doc.stat (InferenceHandler.st50 bid)),
           (⟨sid, bid, DocKind.status⟩, Doc.stat (InferenceHandler.failedStatus bid msg))]) := by
    rcases hinv with hinv | hinv
    · exact ⟨_, _, runPipeline_modelError_eq bid sid confidence o bd mr elapsed store d sk em
        hmeta hsk hsk0 hinv⟩
    · exact ⟨_, _, runPipeline_raised_eq bid sid confidence o bd mr elapsed store d sk em
        hmeta hsk hsk0 hinv⟩
  rw [inference_truthy_eq bid sid confidence o bd mr elapsed store hb hs, heq]
  have hkeys : s3keys (applyWrites store
      [(⟨sid, bid, DocKind.status⟩, Doc.stat (InferenceHandler.st25 bid)),
       (⟨sid, bid, DocKind.status⟩, Doc.stat (InferenceHandler.st50 bid)),
       (⟨sid, bid, DocKind.status⟩, Doc.stat (InferenceHandler.failedStatus bid msg))]) =
      s3keys store := by
    apply s3keys_applyWrites_of_mem
    rintro w hw
    fin_cases hw <;> exact hstat
  refine ⟨rfl, ?_, ⟨msg, ?_⟩, ?_⟩
  · rintro w hw
    fin_cases hw <;> rfl
  · have happ : applyWrites store
        [(⟨sid, bid, DocKind.status⟩, Doc.stat (InferenceHandler.st25 bid)),
         (⟨sid, bid, DocKind.status⟩, Doc.stat (InferenceHandler.st50 bid)),
         (⟨sid, bid, DocKind.status⟩, Doc.stat (InferenceHandler.failedStatus bid msg))] =
        s3put (s3put (s3put store ⟨sid, bid, DocKind.status⟩
            (Doc.stat (InferenceHandler.st25 bid)))
          ⟨sid, bid, DocKind.status⟩ (Doc.stat (InferenceHandler.st50 bid)))
          ⟨sid, bid, DocKind.status⟩ (Doc.stat (InferenceHandler.failedStatus bid msg)) := rfl
    rw [happ, s3get_put_self]
    rfl
  · have hfind : findKey (applyWrites store
        [(⟨sid, bid, DocKind.status⟩, Doc.stat (InferenceHandler.st25 bid)),
         (⟨sid, bid, DocKind.status⟩, Doc.stat (InferenceHandler.st50 bid)),
         (⟨sid, bid, DocKind.status⟩, Doc.stat (InferenceHandler.failedStatus bid msg))])
        bid "results.json" = none := by
      rw [findKey_eq_of_keys_eq _ store bid "results.json" hkeys]
      exact hnores
    unfold ResultsHandler.lambda_handler
    simp [optStrTruthy, hb, hfind]

/-- Witness for C6 at a concrete input: terminal model error on a
well-formed job; the run answers 500 and the subsequent results query
answers not-found. -/
theorem terminal_failure_fails_job_witness :
    (InferenceHandler.lambda_handler (some "b1") (some "s1") none
        (fun _ => Outcome.modelError "bad input") 1 3 0 okStore).1.1 = 500 ∧
    ResultsHandler.lambda_handler (some "b1") (applyWrites okStore
      (InferenceHandler.lambda_handler (some "b1") (some "s1") none
        (fun _ => Outcome.modelError "bad input") 1 3 0 okStore).2) = (404, .notFound) := by
  have h := terminal_failure_fails_job "b1" "s1" none (fun _ => Outcome.modelError "bad input")
    1 3 0 okStore
    (Doc.meta
      { blueprintId := "b1"
        sessionId := "s1"
        fileName := "plan.png"
        fileSize := 1024
        format := "png"
        s3Key := some "uploads/s1/b1/original.png" })
    "uploads/s1/b1/original.png" "bad input"
    (by decide) (by decide) (by decide) rfl (by decide) (Or.inl rfl) (by decide) (by decide)
  exact ⟨h.1, h.2.2.2⟩

lemma pyRound_zero (n : ℕ) : pyRound 0 n = 0 := by
  norm_num [pyRound, roundHalfToEven]

/-- C4: on a successful run the persisted Results document carries the
detections the endpoint returned, and its `avgConfidence` equals the
arithmetic mean of their confidence scores rounded to 2 decimal
places — and equals 0 when the detection list is empty. The rows
behind `predict_fn` are arbitrary, covering the output of the model at
every confidence threshold. -/
theorem avgConfidence_rounded_mean (rows : List Row) (imgW imgH : ℤ) (bid sid : String)
    (confidence : Option ℚ) (o : ℕ → Outcome) (bd elapsed : ℚ) (mr : ℕ)
    (store : S3) (d : Doc) (sk : String)
    (hb : bid ≠ "") (hs : sid ≠ "")
    (hmeta : s3get store ⟨sid, bid, DocKind.metadata⟩ = some d)
    (hsk : docS3Key d = some sk) (hsk0 : sk ≠ "")
    (hinv : (retryAux o bd mr 0 mr).1 = RetryResult.ok (predict_fn rows imgW imgH)) :
    ∃ r : ResultsDoc,
      s3get (applyWrites store (InferenceHandler.lambda_handler (some bid) (some sid)
          confidence o bd mr elapsed store).2) ⟨sid, bid, DocKind.results⟩ = some (.res r) ∧
      r.detections = (predict_fn rows imgW imgH).detections.getD [] ∧
      (r.detections ≠ [] →
        r.statistics.avgConfidence =
          pyRound ((r.detections.map Detection.confidence).sum /
            ((r.detections.map Detection.confidence).length : ℚ)) 2) ∧
      (r.detections = [] → r.statistics.avgConfidence = 0) := by
  rw [inference_truthy_eq bid sid confidence o bd mr elapsed store hb hs,
    runPipeline_success_eq bid sid confidence o bd mr elapsed store d sk
      (predict_fn rows imgW imgH) hmeta hsk hsk0 hinv]
  refine ⟨InferenceHandler.formatResults bid (predict_fn rows imgW imgH) elapsed,
    ?_, rfl, ?_, ?_⟩
  · have happ : applyWrites store
        [(⟨sid, bid, DocKind.status⟩, Doc.stat (InferenceHandler.st25 bid)),
         (⟨sid, bid, DocKind.status⟩, Doc.stat (InferenceHandler.st50 bid)),
         (⟨sid, bid, DocKind.status⟩, Doc.stat (InferenceHandler.st75 bid)),
         (⟨sid, bid, DocKind.results⟩,
           Doc.res (InferenceHandler.formatResults bid (predict_fn rows imgW imgH) elapsed)),
         (⟨sid, bid, DocKind.status⟩, Doc.stat (InferenceHandler.st100 bid))] =
        s3put (s3put (s3put (s3put (s3put store
            ⟨sid, bid, DocKind.status⟩ (Doc.stat (InferenceHandler.st25 bid)))
          ⟨sid, bid, DocKind.status⟩ (Doc.stat (InferenceHandler.st50 bid)))
          ⟨sid, bid, DocKind.status⟩ (Doc.stat (InferenceHandler.st75 bid)))
          ⟨sid, bid, DocKind.results⟩
            (Doc.res (InferenceHandler.formatResults bid (predict_fn rows imgW imgH) elapsed)))
          ⟨sid, bid, DocKind.status⟩ (Doc.stat (InferenceHandler.st100 bid)) := rfl
    rw [happ, s3get_put_other _ _ _ _ (by simp), s3get_put_self]
  · intro hne
    have hne' : buildDetections rows ≠ [] := by
      simpa [InferenceHandler.formatResults, predict_fn] using hne
    simp only [InferenceHandler.formatResults, predict_fn, Option.getD_some, List.length_map]
    rw [if_neg hne']
  · intro he
    have he' : buildDetections rows = [] := by
      simpa [InferenceHandler.formatResults, predict_fn] using he
    simp only [InferenceHandler.formatResults, predict_fn, Option.getD_some]
    rw [if_pos he', pyRound_zero]

/-- Prediction rows used by witnesses: two wall rows and a door row
with confidences 0.9, 0.8, 0.6 (the scenario B shape). -/
def demoRows : List Row :=
  [{ xmin := 0, ymin := 0, xmax := 10, ymax := 10, confidence := 9 / 10, name := "wall" },
   { xmin := 1, ymin := 1, xmax := 4, ymax := 9, confidence := 8 / 10, name := "wall" },
   { xmin := 2, ymin := 2, xmax := 5, ymax := 5, confidence := 6 / 10, name := "door" }]

/-- Witness for C4: a successful run over a concrete store and three
concrete detections persists a results document whose average
confidence is the rounded mean of the three confidences. -/
theorem avgConfidence_rounded_mean_witness :
    ∃ r : ResultsDoc,
      s3get (applyWrites okStore (InferenceHandler.lambda_handler (some "b1") (some "s1")
          none (fun _ => Outcome.success (predict_fn demoRows 100 80)) 1 3 0 okStore).2)
          ⟨"s1", "b1", DocKind.results⟩ = some (.res r) ∧
      r.detections = (predict_fn demoRows 100 80).detections.getD [] ∧
      (r.detections ≠ [] →
        r.statistics.avgConfidence =
          pyRound ((r.detections.map Detection.confidence).sum /
            ((r.detections.map Detection.confidence).length : ℚ)) 2) ∧
      (r.detections = [] → r.statistics.avgConfidence = 0) :=
  avgConfidence_rounded_mean demoRows 100 80 "b1" "s1" none
    (fun _ => Outcome.success (predict_fn demoRows 100 80)) 1 0 3 okStore
    (Doc.meta
      { blueprintId := "b1"
        sessionId := "s1"
        fileName := "plan.png"
        fileSize := 1024
        format := "png"
        s3Key := some "uploads/s1/b1/original.png" })
    "uploads/s1/b1/original.png"
    (by decide) (by decide) (by decide) rfl (by decide) rfl

lemma prepend_ne_empty (a b : String) (ha : a.data ≠ []) : a ++ b ≠ "" := by
  intro h
  have hd : (a ++ b).data = [] := congrArg String.data h
  rw [String.data_append, List.append_eq_nil] at hd
  exact ha hd.1

lemma upload_success_eq (fileName : Option String) (t : String) (n : ℤ)
    (sid uuidHex pu : String)
    (hfn : optStrTruthy fileName = true)
    (ht : t ∈ (["image/png", "image/jpeg", "image/jpg", "application/pdf"] : List String))
    (hn : n ≠ 0) (hncap : ¬(10 * 1024 * 1024 : ℤ) < n) (hs : sid ≠ "") :
    UploadHandler.lambda_handler fileName (some t) (some n) (some sid) uuidHex pu =
      ((200, .ok ("blueprint-" ++ uuidHex.take 12) pu
          (renderKey ⟨sid, "blueprint-" ++ uuidHex.take 12,
            .original (((fileName.getD "").splitOn ".").getLastD "")⟩)),
        [(⟨sid, "blueprint-" ++ uuidHex.take 12, DocKind.metadata⟩, .meta
            { blueprintId := "blueprint-" ++ uuidHex.take 12
              sessionId := sid
              fileName := fileName.getD ""
              fileSize := n
              format := ((fileName.getD "").splitOn ".").getLastD ""
              s3Key := some (renderKey ⟨sid, "blueprint-" ++ uuidHex.take 12,
                .original (((fileName.getD "").splitOn ".").getLastD "")⟩) }),
         (⟨sid, "blueprint-" ++ uuidHex.take 12, DocKind.status⟩,
           .stat (UploadHandler.st10 ("blueprint-" ++ uuidHex.take 12)))]) := by
  have ht0 : t ≠ "" := by
    simp only [List.mem_cons, List.not_mem_nil, or_false] at ht
    rcases ht with rfl | rfl | rfl | rfl <;> decide
  have hb : (optStrTruthy fileName && optStrTruthy (some t) && optIntTruthy (some n) &&
      optStrTruthy (some sid)) = true := by
    rw [hfn]
    simp [optStrTruthy, optIntTruthy, hn, hs, ht0]
  have hncap' : ¬(10485760 : ℤ) < n := by
    norm_num at hncap
    omega
  unfold UploadHandler.lambda_handler
  rw [hb]
  simp [ht, hncap']

/-- Progress value carried by a write when it targets a status key and
holds a status document. -/
def statusProgress : JobKey × Doc → Option ℕ
  | (k, Doc.stat s) => if k.kind = DocKind.status then some s.progress else none
  | _ => none

/-- C5: on a successful run, the progress values written to the job
Status document — the intake write followed by the coordinator writes,
in write order — are exactly 10, 25, 50, 75, 100, and this sequence is
monotonically non-decreasing. -/
theorem progress_sequence_success (fileName : Option String) (t : String) (n : ℤ)
    (sid uuidHex presignedUrl : String) (confidence : Option ℚ)
    (o : ℕ → Outcome) (bd elapsed : ℚ) (mr : ℕ) (store : S3) (result : SMResponse)
    (hfn : optStrTruthy fileName = true)
    (ht : t ∈ (["image/png", "image/jpeg", "image/jpg", "application/pdf"] : List String))
    (hn : n ≠ 0) (hncap : ¬(10 * 1024 * 1024 : ℤ) < n) (hs : sid ≠ "")
    (hinv : (retryAux o bd mr 0 mr).1 = RetryResult.ok result) :
    ((UploadHandler.lambda_handler fileName (some t) (some n) (some sid) uuidHex
        presignedUrl).2 ++
      (InferenceHandler.lambda_handler (some ("blueprint-" ++ uuidHex.take 12)) (some sid)
        confidence o bd mr elapsed
        (applyWrites store (UploadHandler.lambda_handler fileName (some t) (some n)
          (some sid) uuidHex presignedUrl).2)).2).filterMap statusProgress =
      [10, 25, 50, 75, 100] ∧
    List.Chain' (fun a b => a ≤ b)
      (((UploadHandler.lambda_handler fileName (some t) (some n) (some sid) uuidHex
          presignedUrl).2 ++
        (InferenceHandler.lambda_handler (some ("blueprint-" ++ uuidHex.take 12)) (some sid)
          confidence o bd mr elapsed
          (applyWrites store (UploadHandler.lambda_handler fileName (some t) (some n)
            (some sid) uuidHex presignedUrl).2)).2).filterMap statusProgress) := by
  have hup := upload_success_eq fileName t n sid uuidHex presignedUrl hfn ht hn hncap hs
  have hbid : ("blueprint-" ++ uuidHex.take 12) ≠ "" :=
    prepend_ne_empty "blueprint-" (uuidHex.take 12) (by decide)
  have hmeta : s3get (applyWrites store (UploadHandler.lambda_handler fileName (some t)
      (some n) (some sid) uuidHex presignedUrl).2)
      ⟨sid, "blueprint-" ++ uuidHex.take 12, DocKind.metadata⟩ =
      some (.meta
        { blueprintId := "blueprint-" ++ uuidHex.take 12
          sessionId := sid
          fileName := fileName.getD ""
          fileSize := n
          format := ((fileName.getD "").splitOn ".").getLastD ""
          s3Key := some (renderKey ⟨sid, "blueprint-" ++ uuidHex.take 12,
            .original (((fileName.getD "").splitOn ".").getLastD "")⟩) }) := by
    rw [hup]
    show s3get (s3put (s3put store _ _) _ _) _ = _
    rw [s3get_put_other _ _ _ _ (by simp), s3get_put_self]
  have hrun := runPipeline_success_eq ("blueprint-" ++ uuidHex.take 12) sid confidence o bd mr
    elapsed (applyWrites store (UploadHandler.lambda_handler fileName (some t) (some n)
      (some sid) uuidHex presignedUrl).2) _ _ result hmeta rfl
    (renderKey_ne_empty _) hinv
  have hseq : ((UploadHandler.lambda_handler fileName (some t) (some n) (some sid) uuidHex
        presignedUrl).2 ++
      (InferenceHandler.lambda_handler (some ("blueprint-" ++ uuidHex.take 12)) (some sid)
        confidence o bd mr elapsed
        (applyWrites store (UploadHandler.lambda_handler fileName (some t) (some n)
          (some sid) uuidHex presignedUrl).2)).2).filterMap statusProgress =
      [10, 25, 50, 75, 100] := by
    rw [inference_truthy_eq _ sid confidence o bd mr elapsed _ hbid hs, hrun, hup]
    simp [statusProgress, UploadHandler.st10, InferenceHandler.st25, InferenceHandler.st50,
      InferenceHandler.st75, InferenceHandler.st100]
  refine ⟨hseq, ?_⟩
  rw [hseq]
  norm_num [List.chain'_cons, List.chain'_singleton]

/-- Witness for C5 at a concrete input: a full successful intake-plus-
run writes the progress sequence 10, 25, 50, 75, 100. -/
theorem progress_sequence_success_witness :
    ((UploadHandler.lambda_handler (some "plan.png") (some "image/png") (some 1024)
        (some "s1") "0123456789abcdef" "https://u").2 ++
      (InferenceHandler.lambda_handler (some ("blueprint-" ++ "0123456789abcdef".take 12))
        (some "s1") none (fun _ => Outcome.success (predict_fn demoRows 100 80)) 1 3 0
        (applyWrites ([] : S3) (UploadHandler.lambda_handler (some "plan.png")
          (some "image/png") (some 1024) (some "s1") "0123456789abcdef"
          "https://u").2)).2).filterMap statusProgress = [10, 25, 50, 75, 100] :=
  (progress_sequence_success (some "plan.png") "image/png" 1024 "s1" "0123456789abcdef"
    "https://u" none (fun _ => Outcome.success (predict_fn demoRows 100 80)) 1 0 3 ([] : S3)
    (predict_fn demoRows 100 80) (by decide) (by decide) (by decide) (by decide) (by decide)
    rfl).1

end MaxTrace
